import Mathlib

/-!
Verification development for the Schema-Inferring Ingestion Pipeline
(`src/main.py` of the pdf-etl-engine repository).

The Python source is shallowly embedded: pure helpers become Lean
functions; calls to external collaborators (the generative-AI oracles,
Firestore, BigQuery, object storage, the `dateutil` fuzzy date parser)
become explicit parameters describing the collaborator's observable
outcome.  Character classes of the Python regexes are modelled over the
ASCII range, which covers every value the pipeline's contracts exchange.
String operations are defined over the character list underlying
`String` so that all definitions evaluate inside the kernel.
-/

/-- Python exception classes relevant to the pipeline's `except` clauses. -/
inductive PyExc
  | valueError
  | typeError
  | overflowError
  | otherError
deriving DecidableEq, Repr

/-- Characters matched by the regex class `\s` (ASCII part), also the
characters stripped by Python's `str.strip()`. -/
def isPySpace (c : Char) : Bool :=
  c = ' ' || c = '\t' || c = '\n' || c = '\r' || c = '\x0b' || c = '\x0c'

/-- Python's `str.strip()`: drop leading and trailing whitespace. -/
def pyStrip (s : String) : String :=
  String.mk (((s.data.dropWhile isPySpace).reverse.dropWhile isPySpace).reverse)

/-- Python's `str.lower()` (ASCII range), applied character-wise. -/
def strLower (s : String) : String :=
  String.mk (s.data.map Char.toLower)

/-- `p.isPrefixOf? cs`-style check: does `cs` start with the literal
character list `p`? -/
def startsList : List Char → List Char → Bool
  | [], _ => true
  | _ :: _, [] => false
  | p :: ps, c :: cs => p = c && startsList ps cs

/-- Occurrence check for Python's `pat in s` (substring containment). -/
def hasSubstr (pat : List Char) : List Char → Bool
  | [] => startsList pat []
  | c :: cs => startsList pat (c :: cs) || hasSubstr pat cs

/-- Python's `pat in s` on strings. -/
def strContains (s pat : String) : Bool :=
  hasSubstr pat.data s.data

/-- Python's `s.endswith(pat)`. -/
def strEndsWith (s pat : String) : Bool :=
  startsList pat.data.reverse s.data.reverse

/-- Python's `s.split(sep)` for a one-character separator (the pipeline
only splits on a slash). -/
def splitOnChar (sep : Char) : List Char → List (List Char)
  | [] => [[]]
  | c :: rest =>
    match splitOnChar sep rest with
    | h :: t => if c = sep then [] :: h :: t else (c :: h) :: t
    | [] => [[c]]

/-- `file_path.split("/")` as a list of strings. -/
def pathSegments (s : String) : List String :=
  (splitOnChar '/' s.data).map String.mk

/-- One character of the regex class of `re.sub` in
`infer_kpi_type_fallback` and `convert_value_for_bq`: dollar, euro,
pound and yen signs, comma, percent, whitespace. -/
def isMoneyJunk (c : Char) : Bool :=
  c = '$' || c = '€' || c = '£' || c = '¥' || c = ',' || c = '%' || isPySpace c

/-- The `re.sub` call deleting currency symbols, commas, percent signs
and whitespace. -/
def stripMoney (s : String) : String :=
  String.mk (s.data.filter (fun c => !(isMoneyJunk c)))

/-- Tail of the anchored numeric regex `^-?\d+\.?\d*$`: state after the
optional dot (`\d*$`). -/
def numTailFrac : List Char → Bool
  | [] => true
  | c :: cs => c.isDigit && numTailFrac cs

/-- Tail of the anchored numeric regex `^-?\d+\.?\d*$`: state inside the
leading digit run, one digit already seen. -/
def numTailInt : List Char → Bool
  | [] => true
  | '.' :: cs => numTailFrac cs
  | c :: cs => c.isDigit && numTailInt cs

/-- Body of the anchored numeric regex after the optional sign:
`\d+\.?\d*$` (at least one digit required). -/
def numBody : List Char → Bool
  | [] => false
  | c :: cs => c.isDigit && numTailInt cs

/-- `re.match` of the anchored numeric regex `^-?\d+\.?\d*$` as a
Boolean: optional minus sign, one or more digits, optional dot, more
digits, end of string. -/
def numMatchB (cs : List Char) : Bool :=
  match cs with
  | '-' :: rest => numBody rest
  | rest => numBody rest

/-- Month-name alternation of the long-form date regex in
`infer_kpi_type_fallback`, lowercased (the regex is compiled with
`re.IGNORECASE`). -/
def monthNamesLower : List String :=
  ["january", "february", "march", "april", "may", "june", "july",
   "august", "september", "october", "november", "december",
   "jan", "feb", "mar", "apr", "may", "jun", "jul", "aug",
   "sep", "oct", "nov", "dec"]

/-- Consume the literal characters `name` from the front of `cs`. -/
def dropName : List Char → List Char → Option (List Char)
  | [], cs => some cs
  | _ :: _, [] => none
  | n :: ns, c :: cs => if c = n then dropName ns cs else none

/-- Regex atom `\s+`: require one whitespace character, then greedily
consume the rest of the run (the following regex atoms never match
whitespace, so the greedy munch is exact). -/
def ws1 (cs : List Char) : Option (List Char) :=
  match cs with
  | c :: r => if isPySpace c then some (r.dropWhile isPySpace) else none
  | [] => none

/-- Regex tail `\d` four times then end of input: exactly a four-digit
year closing the month-name date pattern. -/
def yearEnd (cs : List Char) : Bool :=
  match cs with
  | [a, b, c, d] => a.isDigit && b.isDigit && c.isDigit && d.isDigit
  | _ => false

/-- Regex tail: optional comma, whitespace, four-digit year, end. -/
def commaWsYear (cs : List Char) : Bool :=
  let cs := match cs with
    | ',' :: r => r
    | r => r
  match ws1 cs with
  | some r => yearEnd r
  | none => false

/-- The part of the month-name date regex after the month word:
whitespace, a one- or two-digit day, optional comma, whitespace,
four-digit year, end.  The day is matched with the regex engine's
backtracking (try two digits, else one). -/
def monthRest (cs : List Char) : Bool :=
  match ws1 cs with
  | none => false
  | some r =>
    match r with
    | d1 :: rest =>
      d1.isDigit &&
        (match rest with
         | d2 :: rest2 => (d2.isDigit && commaWsYear rest2) || commaWsYear rest
         | [] => false)
    | [] => false

/-- The anchored long-form month-name date regex of
`infer_kpi_type_fallback`, applied to an already-lowercased string
(modelling `re.IGNORECASE`). -/
def monthMatch (cs : List Char) : Bool :=
  monthNamesLower.any (fun m =>
    match dropName m.data cs with
    | some rest => monthRest rest
    | none => false)

/-- The separator class of the numeric date regexes: dash or slash. -/
def isSep (c : Char) : Bool :=
  c = '-' || c = '/'

/-- Decompose `cs` as digits, separator, digits, separator, digits (end
anchored), returning the three digit-run lengths.  Exact for the
anchored numeric date regexes because digit runs and separators are
disjoint character classes. -/
def dateShape (cs : List Char) : Option (Nat × Nat × Nat) :=
  let a := cs.takeWhile Char.isDigit
  match cs.dropWhile Char.isDigit with
  | s1 :: r2 =>
    if isSep s1 then
      let b := r2.takeWhile Char.isDigit
      match r2.dropWhile Char.isDigit with
      | s2 :: r4 =>
        if isSep s2 then
          let c := r4.takeWhile Char.isDigit
          if r4.dropWhile Char.isDigit = [] then some (a.length, b.length, c.length)
          else none
        else none
      | [] => none
    else none
  | [] => none

/-- The three anchored numeric date regexes of `infer_kpi_type_fallback`:
year-month-day with a four-digit year first, day-month-year with a
four-digit year last, and day-month-year with a two-digit year last. -/
def datePatternsMatch (cs : List Char) : Bool :=
  match dateShape cs with
  | some (a, b, c) =>
    (a = 4 && 1 ≤ b && b ≤ 2 && 1 ≤ c && c ≤ 2) ||
    (1 ≤ a && a ≤ 2 && 1 ≤ b && b ≤ 2 && (c = 4 || c = 2))
  | none => false

/-- The categorical indicator of `infer_kpi_type_fallback`: after
removing spaces and hyphens (Python `replace`), the remainder is
nonempty and purely alphabetic (Python `isalpha`). -/
def alphaAfterStrip (s : String) : Bool :=
  let t := s.data.filter (fun c => !(c = ' ' || c = '-'))
  !t.isEmpty && t.all Char.isAlpha

/-- `infer_kpi_type_fallback` of `src/main.py`: the regex-based fallback
type classifier.  The Python parameter `value` is an arbitrary object;
the pipeline only ever passes `None` or strings, modelled by
`Option String`. -/
def infer_kpi_type_fallback (value : Option String) : String :=
  match value with
  | none => "string"
  | some v =>
    if v = "" || v = "N/A" || v = "---" then "string"
    else
      let val_str := pyStrip v
      if numMatchB (stripMoney val_str).data then "number"
      else
        let has_letters := val_str.data.any Char.isAlpha
        let has_numbers := val_str.data.any Char.isDigit
        if has_letters && has_numbers then
          (if monthMatch (strLower val_str).data then "date"
           else if val_str.length ≤ 30 then "categorical" else "string")
        else if datePatternsMatch val_str.data then "date"
        else if val_str.length ≤ 25 && alphaAfterStrip val_str then "categorical"
        else "string"

/-- Numeric value of a digit run. -/
def digitsToNat (ds : List Char) : Nat :=
  ds.foldl (fun a c => a * 10 + (c.toNat - '0'.toNat)) 0

/-- An exact decimal number: `mant` divided by ten to the `scale`.
Python floats occur in this pipeline only as parsed decimal literals —
they are compared but never added or multiplied — so their exact
decimal value is a faithful model of the float semantics the code
relies on. -/
structure DecNum where
  mant : Int
  scale : Nat
deriving DecidableEq, Repr

/-- Ten to the `n`, as an integer. -/
def intPow10 : Nat → Int
  | 0 => 1
  | n + 1 => 10 * intPow10 n

/-- Canonical form of `m` divided by ten to the `k`: strip factors of
ten shared by mantissa and scale, so equal decimal values have equal
representations. -/
def decCanon : Int → Nat → DecNum
  | m, 0 => ⟨m, 0⟩
  | m, k + 1 => if m % 10 = 0 then decCanon (m / 10) k else ⟨m, k + 1⟩

/-- The decimal value `m` divided by ten to the `k`, canonicalized. -/
def decNum (m : Int) (k : Nat) : DecNum :=
  decCanon m k

/-- Value comparison of exact decimals (Python `<` on floats). -/
def decLtB (a b : DecNum) : Bool :=
  a.mant * intPow10 b.scale < b.mant * intPow10 a.scale

/-- Exponent suffix of a Python float literal: optional sign, one or
more digits, end of string. -/
def expPart (mant : Int) (scale : Nat) (cs : List Char) : Option DecNum :=
  let p : Bool × List Char :=
    match cs with
    | '+' :: r => (false, r)
    | '-' :: r => (true, r)
    | r => (false, r)
  let ed := p.2.takeWhile Char.isDigit
  let rest := p.2.dropWhile Char.isDigit
  if ed.isEmpty || !rest.isEmpty then none
  else if p.1 then some (decCanon mant (scale + digitsToNat ed))
  else some (decCanon (mant * intPow10 (digitsToNat ed)) scale)

/-- Python's `float(s)` on an already-whitespace-free string, the parsed
value represented as an exact decimal: optional sign, digits with an
optional fractional part, optional exponent.  A failing parse (Python
`ValueError`) is `none`.  The `inf`/`nan` literals and digit
underscores accepted by Python never arise in this pipeline and are not
modelled. -/
def pyFloat (s : String) : Option DecNum :=
  let q : Int × List Char :=
    match s.data with
    | '+' :: r => (1, r)
    | '-' :: r => (-1, r)
    | r => (1, r)
  let ip := q.2.takeWhile Char.isDigit
  let cs2 := q.2.dropWhile Char.isDigit
  let t : Bool × List Char × List Char :=
    match cs2 with
    | '.' :: r => (true, r.takeWhile Char.isDigit, r.dropWhile Char.isDigit)
    | r => (false, [], r)
  if ip.isEmpty && (!t.1 || t.2.1.isEmpty) then none
  else
    let mant : Int :=
      q.1 * ((digitsToNat ip : Int) * intPow10 t.2.1.length + (digitsToNat t.2.1 : Int))
    match t.2.2 with
    | [] => some (decCanon mant t.2.1.length)
    | 'e' :: r => expPart mant t.2.1.length r
    | 'E' :: r => expPart mant t.2.1.length r
    | _ => none

/-- The parenthesised-negative rewrite of `convert_value_for_bq`: if the
cleaned string starts with an opening and ends with a closing
parenthesis, replace the pair by a leading minus sign. -/
def parenNeg (s : String) : String :=
  match s.data with
  | '(' :: rest =>
    match rest.getLast? with
    | some ')' => String.mk ('-' :: rest.dropLast)
    | _ => s
  | _ => s

/-- Outcome of a call to the external fuzzy date parser
(`dateutil.parser.parse` with `fuzzy=True`, followed by `strftime` into
the canonical date form).  The parser is an external library; its
documented contract returns a datetime — abstracted here to the
formatted date string — or raises: `ValueError` on unparseable input,
`TypeError` on non-string input, and `OverflowError` when the parsed
date exceeds the largest valid C integer (extreme numeric strings). -/
inductive DateOutcome
  | ok (formatted : String)
  | err (e : PyExc)
deriving DecidableEq, Repr

/-- A typed scalar handed to the BigQuery row insert: null, a float
(exact decimal model), or a string. -/
inductive BqValue
  | null
  | num (d : DecNum)
  | str (s : String)
deriving DecidableEq, Repr

/-- `convert_value_for_bq` of `src/main.py`.  `value` is `None` or a
string (the extraction oracle's contract); `dateParse` is the external
fuzzy date parser.  A returned `Except.error` models an exception
escaping the function: the Python code catches only `ValueError` and
`TypeError` around the date parse. -/
def convert_value_for_bq (value : Option String) (ai_type : String)
    (dateParse : String → DateOutcome) : Except PyExc BqValue :=
  match value with
  | none => .ok .null
  | some v =>
    if v = "" || v = "N/A" || v = "---" then .ok .null
    else
      let val_str := pyStrip v
      if ai_type = "number" then
        let cleaned := parenNeg (stripMoney val_str)
        match pyFloat cleaned with
        | some q => .ok (.num q)
        | none => .ok .null
      else if ai_type = "date" then
        match dateParse val_str with
        | .ok formatted => .ok (.str formatted)
        | .err e =>
          if e = .valueError || e = .typeError then .ok .null
          else .error e
      else .ok (.str val_str)

instance {ε α : Type} [DecidableEq ε] [DecidableEq α] : DecidableEq (Except ε α) := fun a b =>
  match a, b with
  | .ok x, .ok y =>
    if h : x = y then .isTrue (by rw [h]) else .isFalse (fun c => by cases c; exact h rfl)
  | .error x, .error y =>
    if h : x = y then .isTrue (by rw [h]) else .isFalse (fun c => by cases c; exact h rfl)
  | .ok _, .error _ => .isFalse (fun c => by cases c)
  | .error _, .ok _ => .isFalse (fun c => by cases c)

/-- A date parser that always succeeds with a fixed canonical date; used
to instantiate theorems at concrete inputs. -/
def constDateParse : String → DateOutcome := fun _ => .ok "2024-01-01"

/-- The sanitizer `re.sub` keeping only ASCII letters, digits and
underscores (every other character becomes an underscore) followed by
`.lower()`, used for tenant ids, folder ids and KPI column names. -/
def pySanitize (s : String) : String :=
  String.mk ((s.data.map (fun c => if c.isAlphanum || c = '_' then c else '_')).map Char.toLower)

/-- One entry of a folder's `kpi_metadata` list: a Firestore dictionary
whose keys may be absent (`Option`), read with the defaults the code
passes to `dict.get`. -/
structure KpiMeta where
  name : Option String
  sample_value : Option String
  type : Option String
deriving DecidableEq, Repr

/-- `kpi.get("name", "")` of the schema sync loop. -/
def kpiName (m : KpiMeta) : String :=
  m.name.getD ""

/-- `kpi.get("type", "string")` of the schema sync loop. -/
def kpiType (m : KpiMeta) : String :=
  m.type.getD "string"

/-- The sanitized, `kpi_`-prefixed BigQuery column name of a KPI. -/
def kpiColName (k : String) : String :=
  "kpi_" ++ pySanitize k

/-- `get_bigquery_type` of `src/main.py`: map an AI-inferred type to a
BigQuery column type (dictionary lookup with default `STRING`). -/
def get_bigquery_type (ai_type : String) : String :=
  if ai_type = "number" then "FLOAT64"
  else if ai_type = "date" then "DATE"
  else if ai_type = "categorical" then "STRING"
  else if ai_type = "string" then "STRING"
  else "STRING"

/-- A BigQuery schema field: column name and column type. -/
abbrev Column := String × String

/-- The three fixed columns every target table is created with. -/
def fixedSchema : List Column :=
  [("row_id", "STRING"), ("file_name", "STRING"), ("uploaded_at", "TIMESTAMP")]

/-- Result of one `sync_bigquery_schema_typed` call: the table's schema
after the call, the number of schema-alter (`update_table`) operations
issued, and whether the table was created by this call. -/
structure SyncResult where
  schema : List Column
  alterOps : Nat
  created : Bool
deriving DecidableEq, Repr

/-- `sync_bigquery_schema_typed` of `src/main.py`, as a function of the
table state observed in BigQuery (`none` when `get_table` raises
because the table is absent) and the folder's `kpi_metadata`.  When the
table exists, the set of existing column names is computed once and the
loop appends a field for every metadata entry whose sanitized column
name is not among them; `update_table` runs only if that list is
nonempty.  When the table is absent it is created with the three fixed
columns plus one typed column per metadata entry. -/
def sync_bigquery_schema_typed (existing : Option (List Column))
    (kpi_metadata : List KpiMeta) : SyncResult :=
  match existing with
  | some cols =>
    let existing_cols := cols.map Prod.fst
    let new_fields := kpi_metadata.filterMap (fun kpi =>
      let col_name := kpiColName (kpiName kpi)
      if col_name ∈ existing_cols then none
      else some (col_name, get_bigquery_type (kpiType kpi)))
    { schema := cols ++ new_fields
      alterOps := if new_fields.isEmpty then 0 else 1
      created := false }
  | none =>
    { schema := fixedSchema ++ kpi_metadata.map (fun kpi =>
        (kpiColName (kpiName kpi), get_bigquery_type (kpiType kpi)))
      alterOps := 0
      created := true }

/-- Table states after each call of a sequence of
`sync_bigquery_schema_typed` calls against the same table identity,
starting from the table state `existing`; each call observes the schema
produced by the previous one. -/
def syncStates (existing : Option (List Column)) : List (List KpiMeta) → List (List Column)
  | [] => []
  | m :: ms =>
    let s := (sync_bigquery_schema_typed existing m).schema
    s :: syncStates (some s) ms

/-- Observable outcome of the type-classification oracle call in
`infer_kpi_types_with_ai`: either some exception was raised anywhere in
the `try` block (network failure, non-JSON or non-string content —
`json.loads` and `.lower()` errors are caught by the same `except`), or
a JSON object was obtained, modelled as an association list of
field name to raw tag. -/
inductive TypeOracleOutcome
  | exn
  | parsed (mapping : List (String × String))
deriving DecidableEq, Repr

/-- The allowed type vocabulary of `infer_kpi_types_with_ai`. -/
def validTypes : List String :=
  ["number", "date", "categorical", "string"]

/-- `infer_kpi_types_with_ai` of `src/main.py` as a function of the
oracle outcome.  Empty input returns the empty mapping before any
oracle call.  A parsed response is validated tag-wise (tags outside the
vocabulary are coerced to `string`); an exception makes every sampled
field fall back to the tag `string`. -/
def infer_kpi_types_with_ai (kpi_samples : List (String × String))
    (oracle : TypeOracleOutcome) : List (String × String) :=
  if kpi_samples.isEmpty then []
  else
    match oracle with
    | .parsed mapping =>
      mapping.map (fun kv =>
        if strLower kv.2 ∈ validTypes then (kv.1, strLower kv.2) else (kv.1, "string"))
    | .exn => kpi_samples.map (fun kv => (kv.1, "string"))

/-- The `kpi_metadata` list built by the `confirm_kpis` endpoint: for
every selected KPI, its sample value (default empty string) and the
type from the oracle mapping, falling back to
`infer_kpi_type_fallback` on the sample only when the mapping has no
entry for the KPI. -/
def buildKpiMetadata (selected_kpis : List String)
    (kpi_samples : List (String × String))
    (kpi_types : List (String × String)) : List KpiMeta :=
  selected_kpis.map (fun kpi_name =>
    let sample_value := (kpi_samples.lookup kpi_name).getD ""
    let inferred_type :=
      (kpi_types.lookup kpi_name).getD (infer_kpi_type_fallback (some sample_value))
    ⟨some kpi_name, some sample_value, some inferred_type⟩)

/-- Result dictionary of `validate_document_semantic_similarity`. -/
structure SimilarityResult where
  is_similar : Bool
  confidence : DecNum
  reason : String
deriving DecidableEq, Repr

/-- The `confidence` entry of the similarity oracle's parsed JSON:
absent, a value `float()` converts (exact decimal model), or a value on
which `float()` raises. -/
inductive ConfField
  | absent
  | num (d : DecNum)
  | notFloat
deriving DecidableEq, Repr

/-- Observable outcome of the similarity oracle call in
`validate_document_semantic_similarity`: the call raised, the response
failed `json.loads` (raises inside the same `try`), or a JSON object
was parsed, with its three relevant entries each possibly absent. -/
inductive SimOracleResult
  | exn
  | unparseable
  | parsed (is_similar : Option Bool) (confidence : ConfField) (reason : Option String)
deriving DecidableEq, Repr

/-- `validate_document_semantic_similarity` of `src/main.py` as a
function of the oracle outcome.  Any exception inside the `try` block —
including an unparseable response — yields the fail-safe rejection
result with `is_similar = False` and confidence `0.0`. -/
def validate_document_semantic_similarity (oracle : SimOracleResult) : SimilarityResult :=
  match oracle with
  | .parsed sim conf reason =>
    { is_similar := sim.getD false
      confidence :=
        match conf with
        | .absent => decNum 0 0
        | .num d => d
        | .notFloat => decNum 0 0
      reason := reason.getD "No reason provided" }
  | _ =>
    { is_similar := false
      confidence := decNum 0 0
      reason := "Semantic validation failed" }

/-- Routing decision of the inbound-event filter at the top of
`gcs_trigger_handler`. -/
inductive GateAction
  | ignored
  | ignoredPath
  | dispatch (tenant folder : String)
deriving DecidableEq, Repr

/-- The Ingestion Event Gate: the path filter at the top of
`gcs_trigger_handler` as a pure function of the event's object path.
Paths containing the processed segment or a placeholder marker, or not
ending in a PDF extension, are ignored; then the slash-split path must
have at least five segments with first segment `incoming` and fourth
segment `batch`, and the tenant and folder ids are taken positionally
from segments two and three. -/
def eventGate (path : String) : GateAction :=
  if strContains path "processed/" || strContains path ".placeholder"
      || !(strEndsWith (strLower path) ".pdf") then
    .ignored
  else if (pathSegments path).length < 5 || (pathSegments path).getD 0 "" ≠ "incoming"
      || (pathSegments path).getD 3 "" ≠ "batch" then
    .ignoredPath
  else
    .dispatch ((pathSegments path).getD 1 "") ((pathSegments path).getD 2 "")

/-- The `master_intent_profile` dictionary stored by `confirm_kpis`
(always populated with these four entries, hence truthy whenever
present). -/
structure IntentProfile where
  document_category : String
  business_purpose : String
  kpis : List String
  example_terms : List String
deriving DecidableEq, Repr

/-- A folder-configuration document as read from Firestore by
`gcs_trigger_handler`: each key may be absent, and the handler reads
them through `dict.get` with the defaults modelled in the handler
below. -/
structure FolderDoc where
  selected_kpis : Option (List String)
  kpi_metadata : Option (List KpiMeta)
  context_hint : Option String
  is_trained : Option Bool
  master_intent_profile : Option IntentProfile
  owner : Option String
deriving DecidableEq, Repr

/-- Strict JSON delivered by the extraction oracle: an object, or an
array of objects (field values are strings under the oracle's
contract, with `N/A` for missing fields). -/
inductive ExtractedJson
  | obj (fields : List (String × String))
  | arr (elems : List (List (String × String)))
deriving DecidableEq, Repr

/-- The array-collapsing step of `gcs_trigger_handler`: a list response
is replaced by its first element (or the empty object when the list is
empty); an object response passes through. -/
def collapseExtracted : ExtractedJson → List (String × String)
  | .obj fields => fields
  | .arr [] => []
  | .arr (e :: _) => e

/-- Modelled from the spec's words, for comparison with
`collapseExtracted`: the key-wise merge of an array of JSON objects
into one object (Python `dict.update` semantics — every key appearing
in any element is present, later elements winning ties). -/
def mergeKeywiseSpec (elems : List (List (String × String))) : List (String × String) :=
  elems.foldl (fun merged e => merged.filter (fun p => e.lookup p.1 = none) ++ e) []

/-- Observable outcome of the extraction oracle call in
`gcs_trigger_handler`: the call raised, the response failed
`json.loads` (a `ValueError` raised inside the handler's `try`), or
strict JSON was obtained. -/
inductive ExtractOutcome
  | exn (e : PyExc)
  | unparseable
  | json (j : ExtractedJson)
deriving DecidableEq, Repr

/-- Terminal response of one `gcs_trigger_handler` invocation (every
branch answers HTTP 200; the constructors record which JSON body). -/
inductive HandlerResult
  | ignored
  | ignoredPath
  | folderNotFound
  | rejected (reason : String) (confidence : DecNum)
  | failedEmpty
  | insertError
  | success
  | caught (e : PyExc)
deriving DecidableEq, Repr

/-- What one handler invocation did: its terminal result, whether the
extraction oracle was invoked, whether a schema sync ran, whether a row
was inserted, whether the object was archived (copied to the processed
path and deleted), and the row's KPI columns (`row_id` derived from the
clock, `file_name` from the path; the `uploaded_at` timestamp is not
tracked). -/
structure HandlerTrace where
  result : HandlerResult
  extractionCalled : Bool
  schemaSynced : Bool
  rowInserted : Bool
  archived : Bool
  row : Option (List (String × BqValue))
deriving DecidableEq, Repr

/-- A trace that performed no pipeline action. -/
def noActions (r : HandlerResult) : HandlerTrace :=
  ⟨r, false, false, false, false, none⟩

/-- The external world one `gcs_trigger_handler` invocation observes:
the folder document (absent or present), the outcome of the PDF
download, the two oracle calls, the date parser, whether the row
insert reports errors, and the clock reading used for `row_id`. -/
structure HandlerEnv where
  folder : Option FolderDoc
  download : Except PyExc Unit
  simOracle : SimOracleResult
  extractOracle : ExtractOutcome
  dateParse : String → DateOutcome
  insertErrors : Bool
  now : Nat

/-- The handler's `kpi_type_lookup` dictionary comprehension over
`kpi_metadata` (later entries win, `string` when the KPI is absent). -/
def kpiTypeLookup (kpi_metadata : List KpiMeta) (k : String) : String :=
  ((kpi_metadata.reverse.map (fun m => (kpiName m, kpiType m))).lookup k).getD "string"

/-- The row-building loop of `gcs_trigger_handler`: one converted value
per selected KPI, reading the extracted value with default `N/A`; an
exception escaping `convert_value_for_bq` aborts the loop. -/
def buildRow (kpis : List String) (data : List (String × String))
    (kpi_metadata : List KpiMeta) (dateParse : String → DateOutcome) :
    Except PyExc (List (String × BqValue)) :=
  kpis.mapM (fun k => do
    let v ← convert_value_for_bq (some ((data.lookup k).getD "N/A"))
      (kpiTypeLookup kpi_metadata k) dateParse
    pure (kpiColName k, v))

/-- `gcs_trigger_handler` of `src/main.py` (the batch engine), as a
function of the event's object path and the observable behavior of the
external collaborators.  The `try` block around everything after the
path filter reports any escaping exception as a 200 response with an
error body (`HandlerResult.caught`).  The BigQuery schema sync is
recorded as the `schemaSynced` flag (its column-set semantics are
modelled by `sync_bigquery_schema_typed` above). -/
def gcs_trigger_handler (path : String) (env : HandlerEnv) : HandlerTrace :=
  match eventGate path with
  | .ignored => noActions .ignored
  | .ignoredPath => noActions .ignoredPath
  | .dispatch _ _ =>
    match env.folder with
    | none => noActions .folderNotFound
    | some folder_data =>
      let kpis := folder_data.selected_kpis.getD []
      let kpi_metadata := folder_data.kpi_metadata.getD []
      match env.download with
      | .error e => noActions (.caught e)
      | .ok _ =>
        let rejectedAs : Option SimilarityResult :=
          match folder_data.master_intent_profile with
          | some _ =>
            let similarity := validate_document_semantic_similarity env.simOracle
            if !similarity.is_similar || decLtB similarity.confidence (decNum 70 2) then
              some similarity
            else none
          | none => none
        match rejectedAs with
        | some similarity => noActions (.rejected similarity.reason similarity.confidence)
        | none =>
          match env.extractOracle with
          | .exn e => { noActions (.caught e) with extractionCalled := true }
          | .unparseable => { noActions (.caught .valueError) with extractionCalled := true }
          | .json j =>
            let extracted_data := collapseExtracted j
            if extracted_data.isEmpty then
              { noActions .failedEmpty with extractionCalled := true }
            else
              match buildRow kpis extracted_data kpi_metadata env.dateParse with
              | .error e => ⟨.caught e, true, true, false, false, none⟩
              | .ok kpiCols =>
                let row := ("row_id", BqValue.str ("row_" ++ toString env.now))
                  :: ("file_name", BqValue.str ((pathSegments path).getLastD ""))
                  :: kpiCols
                if env.insertErrors then
                  ⟨.insertError, true, true, false, false, some row⟩
                else
                  ⟨.success, true, true, true, true, some row⟩

/-- A date-parser behavior allowed by the external parser's documented
contract: `dateutil.parser.parse` documents that it raises
`OverflowError` when the parsed date exceeds the largest valid C
integer, which extreme numeric strings trigger; every other input here
fails with the ordinary `ValueError`. -/
def overflowDateParse : String → DateOutcome := fun s =>
  if s = "9999999999999999999999999999" then .err .overflowError else .err .valueError

/-- A folder-configuration document exactly as `create_folder` writes
it before any training: no selected KPIs, no metadata, no master
intent profile, and `is_trained` stored as `False`. -/
def untrainedFolderDoc : FolderDoc :=
  { selected_kpis := none
    kpi_metadata := none
    context_hint := some ""
    is_trained := some false
    master_intent_profile := none
    owner := some "u1" }

/-- An environment in which the folder configuration exists but is
untrained, the PDF downloads, the extraction oracle returns a
non-empty object, and the insert succeeds. -/
def untrainedEnv : HandlerEnv :=
  { folder := some untrainedFolderDoc
    download := .ok ()
    simOracle := .exn
    extractOracle := .json (.obj [("Any Field", "1")])
    dateParse := constDateParse
    insertErrors := false
    now := 7 }

/-- A trained folder configuration with two confirmed KPIs, `Total` of
type `number` and `Date` of type `date`. -/
def twoKpiFolderDoc : FolderDoc :=
  { selected_kpis := some ["Total", "Date"]
    kpi_metadata := some [⟨some "Total", some "100", some "number"⟩,
                          ⟨some "Date", some "2024-01-01", some "date"⟩]
    context_hint := some ""
    is_trained := some true
    master_intent_profile := none
    owner := some "u1" }

/-- An environment in which the extraction oracle answers with the
array form `[[Total entry], [Date entry]]` of Scenario F. -/
def arrayAnswerEnv : HandlerEnv :=
  { folder := some twoKpiFolderDoc
    download := .ok ()
    simOracle := .exn
    extractOracle := .json (.arr [[("Total", "100")], [("Date", "2024-01-01")]])
    dateParse := constDateParse
    insertErrors := false
    now := 7 }

/-- A trained folder configuration carrying a master intent profile, so
the semantic validation step runs. -/
def profiledFolderDoc : FolderDoc :=
  { selected_kpis := some ["Total"]
    kpi_metadata := some [⟨some "Total", some "100", some "number"⟩]
    context_hint := some ""
    is_trained := some true
    master_intent_profile := some ⟨"invoices", "", ["Total"], ["Total"]⟩
    owner := some "u1" }

/-- An environment in which the semantic-similarity oracle call raises,
everything else being healthy. -/
def simFailEnv : HandlerEnv :=
  { folder := some profiledFolderDoc
    download := .ok ()
    simOracle := .exn
    extractOracle := .json (.obj [("Total", "100")])
    dateParse := constDateParse
    insertErrors := false
    now := 7 }
example : infer_kpi_type_fallback (some "INV-2024-001") = "categorical" := by decide

example : infer_kpi_type_fallback (some "$1,250.50") = "number" := by decide

example : infer_kpi_type_fallback (some "March 5, 2024") = "date" := by decide

example : infer_kpi_type_fallback (some "2024-01-15") = "date" := by decide

example : infer_kpi_type_fallback (some "") = "string" := by decide

example : infer_kpi_type_fallback (some "Active") = "categorical" := by decide

example : decNum (-125050) 2 = ⟨-12505, 1⟩ := by decide

example : decNum 100 0 = decNum 10000 2 := by decide

example : decLtB (decNum 0 0) (decNum 70 2) = true := by decide

example : pyFloat "-1250.50" = some (decNum (-125050) 2) := by decide

example : pyFloat "100" = some (decNum 100 0) := by decide

example : pyFloat "" = none := by decide

example : pyFloat "-" = none := by decide

example : pyFloat "1.2.3" = none := by decide

example : pyFloat "2.5e2" = some (decNum 250 0) := by decide

example : pyFloat ".5" = some (decNum 5 1) := by decide

example : pyFloat "(100" = none := by decide

example : parenNeg "(100)" = "-100" := by decide

example : parenNeg "100" = "100" := by decide

example : parenNeg "(" = "(" := by decide

example : convert_value_for_bq (some "($1,250.50)") "number" constDateParse
    = .ok (.num (decNum (-125050) 2)) := by decide

example : convert_value_for_bq (some "N/A") "date" constDateParse = .ok .null := by decide

example : convert_value_for_bq (some " x ") "string" constDateParse
    = .ok (.str "x") := by decide

example : convert_value_for_bq (some "not a date") "date"
    (fun _ => .err .valueError) = .ok .null := by decide

example : pySanitize "My Folder-1" = "my_folder_1" := by decide

example :
    (sync_bigquery_schema_typed none
      [⟨some "Total", some "100", some "number"⟩]).schema
    = fixedSchema ++ [("kpi_total", "FLOAT64")] := by decide

example :
    (sync_bigquery_schema_typed (some (fixedSchema ++ [("kpi_total", "FLOAT64")]))
      [⟨some "Total", some "100", some "date"⟩]).schema
    = fixedSchema ++ [("kpi_total", "FLOAT64")] := by decide

example :
    buildKpiMetadata ["Total"] [("Total", "1250.50")]
      (infer_kpi_types_with_ai [("Total", "1250.50")] .exn)
    = [⟨some "Total", some "1250.50", some "string"⟩] := by decide

example :
    buildKpiMetadata ["Total"] [("Total", "1250.50")]
      (infer_kpi_types_with_ai [("Total", "1250.50")] (.parsed []))
    = [⟨some "Total", some "1250.50", some "number"⟩] := by decide

example : validate_document_semantic_similarity .exn
    = ⟨false, decNum 0 0, "Semantic validation failed"⟩ := by decide

example : validate_document_semantic_similarity .unparseable
    = ⟨false, decNum 0 0, "Semantic validation failed"⟩ := by decide

example : eventGate "incoming/u1/invoices/batch/report.pdf" = .dispatch "u1" "invoices" := by decide

example : eventGate "incoming/u1/invoices/master/template.pdf" = .ignoredPath := by decide

example : eventGate "incoming/u1/invoices/batch/.placeholder" = .ignored := by decide

example : eventGate "processed/u1/invoices/batch/report.pdf" = .ignored := by decide

example : eventGate "incoming/u1/invoices/batch/report.txt" = .ignored := by decide

example : eventGate "incoming/u1/invoices/batch/sub/report.pdf" = .dispatch "u1" "invoices" := by decide

example :
    mergeKeywiseSpec [[("Total", "100")], [("Date", "2024-01-01")]]
    = [("Total", "100"), ("Date", "2024-01-01")] := by decide

theorem lookup_map_const (l : List (String × String)) (n : String) :
    (l.map (fun kv => (kv.1, "string"))).lookup n = (l.lookup n).map (fun _ => "string") := by
  induction l with
  | nil => rfl
  | cons kv tl ih =>
    obtain ⟨k, v⟩ := kv
    simp only [List.map_cons, List.lookup]
    cases h : n == k <;> simp [ih]

theorem exn_type_is_string (samples : List (String × String)) (n : String) :
    ((infer_kpi_types_with_ai samples .exn).lookup n).getD
      (infer_kpi_type_fallback (some ((samples.lookup n).getD ""))) = "string" := by
  cases samples with
  | nil => rfl
  | cons kv tl =>
    simp only [infer_kpi_types_with_ai, List.isEmpty_cons, Bool.false_eq_true, if_false]
    rw [lookup_map_const]
    cases h : (kv :: tl).lookup n with
    | some v => simp
    | none => rfl

theorem infer_parsed_nil (samples : List (String × String)) :
    infer_kpi_types_with_ai samples (.parsed []) = [] := by
  cases samples <;> rfl

theorem sync_self_subset (cols : List Column) (m : List KpiMeta) :
    cols ⊆ (sync_bigquery_schema_typed (some cols) m).schema := by
  intro c hc
  simp only [sync_bigquery_schema_typed, List.mem_append]
  exact Or.inl hc

theorem syncStates_all (calls : List (List KpiMeta)) :
    ∀ (base : List Column), ∀ t ∈ syncStates (some base) calls, base ⊆ t := by
  induction calls with
  | nil => intro base t ht; cases ht
  | cons m ms ih =>
    intro base t ht
    rw [syncStates] at ht
    rcases List.mem_cons.mp ht with rfl | ht
    · exact sync_self_subset base m
    · exact (sync_self_subset base m).trans (ih _ t ht)

theorem syncStates_pairwise (calls : List (List KpiMeta)) :
    ∀ existing, (syncStates existing calls).Pairwise (· ⊆ ·) := by
  induction calls with
  | nil => intro e; exact List.Pairwise.nil
  | cons m ms ih =>
    intro e
    rw [syncStates]
    exact List.Pairwise.cons (fun t ht => syncStates_all ms _ t ht) (ih _)

theorem sync_covers (existing : Option (List Column)) (m : List KpiMeta) :
    ∀ kpi ∈ m,
      kpiColName (kpiName kpi)
        ∈ ((sync_bigquery_schema_typed existing m).schema).map Prod.fst := by
  intro kpi hk
  cases existing with
  | none =>
    simp only [sync_bigquery_schema_typed, List.map_append, List.mem_append, List.map_map]
    right
    exact List.mem_map.mpr ⟨kpi, hk, rfl⟩
  | some cols =>
    by_cases hmem : kpiColName (kpiName kpi) ∈ cols.map Prod.fst
    · simp only [sync_bigquery_schema_typed, List.map_append, List.mem_append]
      exact Or.inl hmem
    · simp only [sync_bigquery_schema_typed, List.map_append, List.mem_append]
      right
      refine List.mem_map.mpr
        ⟨(kpiColName (kpiName kpi), get_bigquery_type (kpiType kpi)), ?_, rfl⟩
      exact List.mem_filterMap.mpr ⟨kpi, hk, by rw [if_neg hmem]⟩

theorem handler_extract_congr (path : String) (env : HandlerEnv) (j1 j2 : ExtractedJson)
    (h : collapseExtracted j1 = collapseExtracted j2) :
    gcs_trigger_handler path { env with extractOracle := .json j1 }
      = gcs_trigger_handler path { env with extractOracle := .json j2 } := by
  obtain ⟨fo, dl, so, ex, dp, ie, n⟩ := env
  unfold gcs_trigger_handler
  dsimp only
  cases eventGate path <;> try rfl
  cases fo <;> try rfl
  next d =>
    cases dl <;> try rfl
    next =>
      cases d.master_intent_profile <;> dsimp only <;> rw [h]

/-- Claim C1, counterexample: on the oracle answer of Scenario F — the
array of the two objects carrying `Total` and `Date` — the orchestrator
does not merge key-wise.  Its collapsing step keeps only the first
element, so the key `Date` is absent from the result and the inserted
row's `kpi_date` column is null, while the spec's key-wise merge of the
same array would keep both keys. -/
theorem extraction_array_first_only_cex :
    collapseExtracted (.arr [[("Total", "100")], [("Date", "2024-01-01")]])
      = [("Total", "100")] ∧
    (collapseExtracted (.arr [[("Total", "100")], [("Date", "2024-01-01")]])).lookup "Date"
      = none ∧
    mergeKeywiseSpec [[("Total", "100")], [("Date", "2024-01-01")]]
      = [("Total", "100"), ("Date", "2024-01-01")] ∧
    (gcs_trigger_handler "incoming/u1/invoices/batch/report.pdf" arrayAnswerEnv).row
      = some [("row_id", .str "row_7"), ("file_name", .str "report.pdf"),
              ("kpi_total", .num (decNum 100 0)), ("kpi_date", .null)] := by decide

/-- Claim C1, amended: when the document-understanding oracle returns an
array of JSON objects, the Extraction Orchestrator keeps only the first
element (the empty array becoming the empty object) — the whole
invocation behaves exactly as if the oracle had returned just that
first object, and keys appearing only in later elements are dropped. -/
theorem extraction_array_first_element_amended (path : String) (env : HandlerEnv)
    (e : List (String × String)) (es : List (List (String × String))) :
    gcs_trigger_handler path { env with extractOracle := .json (.arr (e :: es)) }
      = gcs_trigger_handler path { env with extractOracle := .json (.obj e) } ∧
    gcs_trigger_handler path { env with extractOracle := .json (.arr []) }
      = gcs_trigger_handler path { env with extractOracle := .json (.obj []) } :=
  ⟨handler_extract_congr path env _ _ rfl, handler_extract_congr path env _ _ rfl⟩

/-- Claim C2: the trigger handler checks only that the folder document
exists (answering `Folder not trained` when it does not) and never
reads `is_trained`.  Evaluated at the failing input — a storage event
for a batch PDF of a folder that exists exactly as `create_folder`
wrote it, with `is_trained = False` — the pipeline runs to completion:
the extraction oracle is invoked, a row is inserted and the object is
archived, instead of the waiting-for-training no-op the claim
requires. -/
theorem untrained_folder_processed_bug :
    untrainedFolderDoc.is_trained = some false ∧
    (gcs_trigger_handler "incoming/u1/invoices/batch/report.pdf" untrainedEnv).result
      = .success ∧
    (gcs_trigger_handler "incoming/u1/invoices/batch/report.pdf" untrainedEnv).extractionCalled
      = true ∧
    (gcs_trigger_handler "incoming/u1/invoices/batch/report.pdf" untrainedEnv).rowInserted
      = true ∧
    (gcs_trigger_handler "incoming/u1/invoices/batch/report.pdf" untrainedEnv).archived
      = true := by decide

/-- Claim C3, counterexample: when the type-inference oracle call
raises, the field `Total` with sample `1250.50` receives type `string`
from the all-string exception fallback of `infer_kpi_types_with_ai`,
not the type `number` that the regex-based fallback classifier computes
for that sample — contradicting the claim that every field falls back
to the regex classifier. -/
theorem type_inference_oracle_failure_cex :
    buildKpiMetadata ["Total"] [("Total", "1250.50")]
        (infer_kpi_types_with_ai [("Total", "1250.50")] .exn)
      = [⟨some "Total", some "1250.50", some "string"⟩] ∧
    infer_kpi_type_fallback (some "1250.50") = "number" ∧
    ("string" : String) ≠ "number" := by decide

/-- Claim C3, amended: the operation is total — every selected field
always receives a tag — but the two failure modes differ: when the
oracle call raises, every selected field receives the blanket tag
`string`; only when the oracle returns an empty mapping does every
field fall back to the regex classifier applied to its sample value. -/
theorem type_inference_fallback_amended (selected_kpis : List String)
    (kpi_samples : List (String × String)) :
    (buildKpiMetadata selected_kpis kpi_samples
        (infer_kpi_types_with_ai kpi_samples .exn)).map kpiType
      = selected_kpis.map (fun _ => "string") ∧
    (buildKpiMetadata selected_kpis kpi_samples
        (infer_kpi_types_with_ai kpi_samples (.parsed []))).map kpiType
      = selected_kpis.map (fun n =>
          infer_kpi_type_fallback (some ((kpi_samples.lookup n).getD ""))) ∧
    (buildKpiMetadata selected_kpis kpi_samples
        (infer_kpi_types_with_ai kpi_samples .exn)).length = selected_kpis.length := by
  refine ⟨?_, ?_, by simp [buildKpiMetadata]⟩
  · simp only [buildKpiMetadata, List.map_map]
    exact List.map_congr_left (fun n _ => exn_type_is_string kpi_samples n)
  · rw [infer_parsed_nil]
    simp only [buildKpiMetadata, List.map_map]
    rfl

/-- Claim C4: across any sequence of `sync_bigquery_schema_typed` calls
against the same table identity, the column set after each call is a
superset of the column set after every earlier call (pairwise
inclusion of the state sequence); moreover every call against an
existing table only appends columns whose sanitized names are not
already present, so no existing column is ever removed or retyped —
when a spec implies a conflicting type for an existing sanitized name,
the existing column survives unchanged and no homonymous column is
added. -/
theorem schema_monotonicity (existing : Option (List Column)) (calls : List (List KpiMeta)) :
    (syncStates existing calls).Pairwise (· ⊆ ·) ∧
    ∀ (cols : List Column) (m : List KpiMeta), ∃ added,
      (sync_bigquery_schema_typed (some cols) m).schema = cols ++ added ∧
      ∀ c ∈ added, c.1 ∉ cols.map Prod.fst := by
  refine ⟨syncStates_pairwise calls existing, ?_⟩
  intro cols m
  refine ⟨_, rfl, ?_⟩
  intro c hc
  simp only [List.mem_filterMap] at hc
  obtain ⟨kpi, hk, he⟩ := hc
  by_cases hmem : kpiColName (kpiName kpi) ∈ cols.map Prod.fst
  · rw [if_pos hmem] at he; cases he
  · rw [if_neg hmem] at he
    cases he
    exact hmem

/-- Claim C5, counterexample: the value normalizer is not total.  Its
date branch catches only `ValueError` and `TypeError` around the
external fuzzy date parser, whose documented contract also raises
`OverflowError` on extreme numeric strings; under that documented
behavior the exception escapes `convert_value_for_bq`. -/
theorem normalizer_overflow_cex :
    convert_value_for_bq (some "9999999999999999999999999999") "date" overflowDateParse
      = .error .overflowError := by decide

/-- Claim C5, amended: the normalizer never raises provided the fuzzy
date parser itself raises only `ValueError` or `TypeError`; under that
restriction every `(raw, type)` pair yields a typed value or null (the
number, categorical and string branches are unconditionally total). -/
theorem normalizer_totality_amended (value : Option String) (ai_type : String)
    (p : String → DateOutcome)
    (hp : ∀ s e, p s = .err e → e = .valueError ∨ e = .typeError) :
    ∃ r, convert_value_for_bq value ai_type p = .ok r := by
  cases value with
  | none => exact ⟨.null, rfl⟩
  | some v =>
    simp only [convert_value_for_bq]
    split_ifs with h1 h2 h3
    · exact ⟨.null, rfl⟩
    · split <;> exact ⟨_, rfl⟩
    · split
      · exact ⟨_, rfl⟩
      · next e heq =>
        rcases hp _ _ heq with rfl | rfl <;> exact ⟨.null, rfl⟩
    · exact ⟨_, rfl⟩

theorem normalizer_totality_amended_witness :
    ∃ r, convert_value_for_bq (some "March 2024") "date"
      (fun _ => .err .valueError) = .ok r :=
  normalizer_totality_amended (some "March 2024") "date" _
    (fun _ e h => Or.inl (DateOutcome.err.inj h).symm)

/-- Claim C6: absent input — None, the empty string, `N/A` or `---` —
returns null for every type tag; for the tag `number` the normalizer
strips currency symbols, thousands separators, percent signs and
whitespace, reinterprets a parenthesized value as negative, and parses
the remainder as a float, returning null on parse failure; in
particular the Scenario B input, the parenthesized dollar amount
1,250.50, normalizes to the number -1250.50. -/
theorem normalizer_number_branch :
    (∀ t p, convert_value_for_bq none t p = .ok .null) ∧
    (∀ t p, convert_value_for_bq (some "") t p = .ok .null
      ∧ convert_value_for_bq (some "N/A") t p = .ok .null
      ∧ convert_value_for_bq (some "---") t p = .ok .null) ∧
    (∀ p, convert_value_for_bq (some "($1,250.50)") "number" p
      = .ok (.num (decNum (-125050) 2))) ∧
    (∀ (v : String) p, v ≠ "" → v ≠ "N/A" → v ≠ "---" →
      convert_value_for_bq (some v) "number" p
        = match pyFloat (parenNeg (stripMoney (pyStrip v))) with
          | some q => .ok (.num q)
          | none => .ok .null) := by
  refine ⟨fun t p => rfl, fun t p => ⟨rfl, rfl, rfl⟩, fun p => rfl, ?_⟩
  intro v p h1 h2 h3
  simp only [convert_value_for_bq]
  rw [if_neg (by simp [h1, h2, h3])]
  rw [if_pos trivial]

theorem normalizer_number_branch_witness :
    convert_value_for_bq (some "7%") "number" constDateParse = .ok (.num (decNum 7 0)) := by
  have h := normalizer_number_branch.2.2.2 "7%" constDateParse
    (by decide) (by decide) (by decide)
  rw [h]
  decide

/-- Claim C7, counterexample: a 32-character value containing both
letters and digits — not purely numeric after stripping, and not a
month-name date — is classified `string` by the fallback classifier,
an outcome other than the `categorical` or `date` the claim permits
for letters-plus-digits inputs. -/
theorem fallback_long_alnum_cex :
    infer_kpi_type_fallback (some "INVOICE-REFERENCE-CODE-2024-0001") = "string" ∧
    "INVOICE-REFERENCE-CODE-2024-0001".data.any Char.isAlpha = true ∧
    "INVOICE-REFERENCE-CODE-2024-0001".data.any Char.isDigit = true ∧
    numMatchB (stripMoney (pyStrip "INVOICE-REFERENCE-CODE-2024-0001")).data = false ∧
    monthMatch (strLower (pyStrip "INVOICE-REFERENCE-CODE-2024-0001")).data = false ∧
    ("string" : String) ≠ "categorical" ∧ ("string" : String) ≠ "date" := by decide

/-- Claim C7, amended: for every non-absent value whose stripped form
contains both letters and digits and is not purely numeric after
removing currency, percent and space characters, the fallback
classifier returns `date` when the value matches the long-form
month-name date pattern, otherwise `categorical` when the stripped
value is at most 30 characters long, otherwise `string`. -/
theorem fallback_letters_digits_amended (v : String)
    (h1 : v ≠ "") (h2 : v ≠ "N/A") (h3 : v ≠ "---")
    (hl : (pyStrip v).data.any Char.isAlpha = true)
    (hd : (pyStrip v).data.any Char.isDigit = true)
    (hn : numMatchB (stripMoney (pyStrip v)).data = false) :
    infer_kpi_type_fallback (some v)
      = (if monthMatch (strLower (pyStrip v)).data then "date"
         else if (pyStrip v).length ≤ 30 then "categorical" else "string") := by
  simp only [infer_kpi_type_fallback]
  rw [if_neg (by simp [h1, h2, h3])]
  rw [if_neg (by simp [hn])]
  rw [if_pos (by simp [hl, hd])]

theorem fallback_letters_digits_amended_witness :
    infer_kpi_type_fallback (some "INV-001") = "categorical" := by
  have h := fallback_letters_digits_amended "INV-001"
    (by decide) (by decide) (by decide) (by decide) (by decide) (by decide)
  rw [h]
  decide

/-- Claim C8: a second `sync_bigquery_schema_typed` call with the same
column specs, immediately after a first call against any table state,
issues zero schema-alter operations and leaves the schema unchanged —
after the first call every spec's sanitized column name is present, so
the set of missing columns is empty and no update is performed. -/
theorem schema_sync_idempotent (existing : Option (List Column)) (kpi_metadata : List KpiMeta) :
    (sync_bigquery_schema_typed
        (some (sync_bigquery_schema_typed existing kpi_metadata).schema) kpi_metadata).alterOps
      = 0 ∧
    (sync_bigquery_schema_typed
        (some (sync_bigquery_schema_typed existing kpi_metadata).schema) kpi_metadata).schema
      = (sync_bigquery_schema_typed existing kpi_metadata).schema := by
  have hnil : kpi_metadata.filterMap (fun kpi =>
      if kpiColName (kpiName kpi)
          ∈ ((sync_bigquery_schema_typed existing kpi_metadata).schema).map Prod.fst
      then none
      else some (kpiColName (kpiName kpi), get_bigquery_type (kpiType kpi))) = [] := by
    rw [List.filterMap_eq_nil_iff]
    intro kpi hk
    rw [if_pos (sync_covers existing kpi_metadata kpi hk)]
  constructor
  · show (if (kpi_metadata.filterMap _).isEmpty then 0 else 1) = 0
    rw [hnil]
    rfl
  · show (sync_bigquery_schema_typed existing kpi_metadata).schema ++ kpi_metadata.filterMap _
      = (sync_bigquery_schema_typed existing kpi_metadata).schema
    rw [hnil, List.append_nil]

/-- Claim C9, counterexample: the six-segment path
`incoming/u1/invoices/batch/sub/report.pdf` does not match the
five-segment shape the claim requires for dispatch, yet the Event Gate
dispatches it — the code only requires at least five segments. -/
theorem event_gate_six_segment_cex :
    eventGate "incoming/u1/invoices/batch/sub/report.pdf" = .dispatch "u1" "invoices" ∧
    (pathSegments "incoming/u1/invoices/batch/sub/report.pdf").length = 6 := by decide

/-- Claim C9, amended: the Event Gate, a pure function of the object
path, dispatches exactly the paths that contain no processed segment
and no placeholder marker, end (case-insensitively) in the PDF
extension, and split on slashes into at least five segments whose
first is `incoming` and whose fourth is `batch` — the tenant and
folder being segments two and three; every other path is rejected as a
no-op.  In particular the Scenario E batch path dispatches with tenant
`u1` and folder `invoices` while the master-subfolder path is
rejected. -/
theorem event_gate_characterization (path t f : String) :
    (eventGate path = .dispatch t f ↔
      (strContains path "processed/" = false ∧ strContains path ".placeholder" = false ∧
       strEndsWith (strLower path) ".pdf" = true ∧
       5 ≤ (pathSegments path).length ∧
       (pathSegments path).getD 0 "" = "incoming" ∧
       (pathSegments path).getD 3 "" = "batch" ∧
       t = (pathSegments path).getD 1 "" ∧ f = (pathSegments path).getD 2 "")) ∧
    eventGate "incoming/u1/invoices/batch/report.pdf" = .dispatch "u1" "invoices" ∧
    eventGate "incoming/u1/invoices/master/template.pdf" = .ignoredPath := by
  refine ⟨?_, by decide, by decide⟩
  unfold eventGate
  split_ifs with h1 h2
  · simp only [Bool.or_eq_true, Bool.not_eq_true'] at h1
    constructor
    · intro hc; simp at hc
    · rintro ⟨a, b, c, -⟩
      rw [a, b, c] at h1
      simp at h1
  · simp only [Bool.or_eq_true, Bool.not_eq_true', not_or] at h1
    simp only [Bool.or_eq_true, decide_eq_true_eq] at h2
    constructor
    · intro hc; simp at hc
    · rintro ⟨-, -, -, d4, d5, d6, -⟩
      rcases h2 with (h | h) | h
      · omega
      · exact h d5
      · exact h d6
  · simp only [Bool.or_eq_true, Bool.not_eq_true', not_or] at h1
    simp only [Bool.or_eq_true, decide_eq_true_eq, not_or] at h2
    obtain ⟨⟨e1, e2⟩, e3⟩ := h1
    obtain ⟨⟨e4, e5⟩, e6⟩ := h2
    simp only [GateAction.dispatch.injEq]
    constructor
    · rintro ⟨rfl, rfl⟩
      refine ⟨?_, ?_, ?_, by omega, ?_, ?_, rfl, rfl⟩
      · simpa using e1
      · simpa using e2
      · simpa using e3
      · simpa using e5
      · simpa using e6
    · rintro ⟨-, -, -, -, -, -, rfl, rfl⟩
      exact ⟨rfl, rfl⟩

/-- Claim C10: if the semantic-similarity oracle call raises or its
output is unparseable, the validator returns the fail-safe result with
`is_similar` false and confidence zero, and consequently a dispatched
invocation with a profiled folder and a successful download terminates
as rejected — a no-op trace in which the extraction oracle is never
invoked, no row is inserted and the object is not archived. -/
theorem semantic_validator_fail_closed (path : String) (env : HandlerEnv) (d : FolderDoc)
    (t f : String) (ip : IntentProfile)
    (hgate : eventGate path = .dispatch t f)
    (hf : env.folder = some d)
    (hdl : env.download = .ok ())
    (hp : d.master_intent_profile = some ip)
    (hsim : env.simOracle = .exn ∨ env.simOracle = .unparseable) :
    validate_document_semantic_similarity env.simOracle
      = ⟨false, decNum 0 0, "Semantic validation failed"⟩ ∧
    gcs_trigger_handler path env
      = noActions (.rejected "Semantic validation failed" (decNum 0 0)) := by
  have hv : validate_document_semantic_similarity env.simOracle
      = ⟨false, decNum 0 0, "Semantic validation failed"⟩ := by
    rcases hsim with h | h <;> rw [h] <;> rfl
  refine ⟨hv, ?_⟩
  unfold gcs_trigger_handler
  rw [hgate]
  dsimp only
  rw [hf]
  dsimp only
  rw [hdl]
  dsimp only
  rw [hp]
  dsimp only
  rw [hv]
  rfl

theorem semantic_validator_fail_closed_witness :
    validate_document_semantic_similarity SimOracleResult.exn
      = ⟨false, decNum 0 0, "Semantic validation failed"⟩ ∧
    gcs_trigger_handler "incoming/u1/invoices/batch/report.pdf" simFailEnv
      = noActions (.rejected "Semantic validation failed" (decNum 0 0)) :=
  semantic_validator_fail_closed "incoming/u1/invoices/batch/report.pdf"
    simFailEnv profiledFolderDoc "u1" "invoices" ⟨"invoices", "", ["Total"], ["Total"]⟩
    (by decide) rfl rfl rfl (Or.inl rfl)
